import Mathlib

/-!
Verification of WorkTools (plugin-manager shell with self-update mechanism).

Shallow embedding of the parts of the code the specification's testable
properties talk about:

* `src/worktools/updater.py` — `UpdateChecker._compare_version`,
  `UpdateChecker.run`, `AutoUpdater._on_check_error`;
* `src/worktools/plugin_manager.py` — `PluginManager.load_plugins`,
  `_load_plugin_module`, `register_plugin`, `activate_plugin`,
  `deactivate_plugin`;
* `src/worktools/base_plugin.py` — `BasePlugin.initialize`.

Python dictionaries are modelled as insertion-ordered association lists
(assignment replaces in place or appends at the end), exceptions as
`Except`/`Option`, and Qt signal emissions as an explicit event trace.
-/

namespace WorkTools

/-! ## updater.py: version parsing and `_compare_version` -/

/-- `v.split('.')` on the character list of a version string: split on the
dot character, keeping empty fields (Python keeps them too). -/
def splitDots : List Char → List (List Char)
  | [] => [[]]
  | c :: cs =>
    match splitDots cs with
    | [] => [[c]]
    | g :: gs => if c = '.' then [] :: g :: gs else (c :: g) :: gs

/-- Numeric value of a decimal digit character, `none` for a non-digit.
`int(x)` raises `ValueError` on any non-digit (the spec's precondition
restricts inputs to non-negative integer fields, so sign, whitespace and
underscore forms of Python's `int` are out of scope). -/
def digitVal (c : Char) : Option Nat :=
  if '0' ≤ c ∧ c ≤ '9' then some (c.toNat - '0'.toNat) else none

/-- Accumulating decimal parse of a digit list. -/
def parseNatAux : List Char → Nat → Option Nat
  | [], acc => some acc
  | c :: cs, acc =>
    match digitVal c with
    | none => none
    | some d => parseNatAux cs (acc * 10 + d)

/-- `int(x)` on one dot-separated field: fails on the empty field and on any
non-digit character. -/
def parseNatField (cs : List Char) : Option Nat :=
  match cs with
  | [] => none
  | _ => parseNatAux cs 0

/-- `[int(x) for x in v.split('.')]`: `none` when any field fails to parse
(the `ValueError` that `_compare_version` lets escape). -/
def parseParts (v : String) : Option (List Nat) :=
  (splitDots v.data).mapM parseNatField

/-- Tail of the `_compare_version` loop once the first field list is
exhausted: each remaining field of the second list is compared against 0. -/
def cmpZeros : List Nat → Int
  | [] => 0
  | b :: ys => if 0 > b then 1 else if 0 < b then -1 else cmpZeros ys

/-- The comparison loop of `UpdateChecker._compare_version` on the parsed
field lists: walk both lists, reading 0 past the end of the shorter one,
and return at the first strictly larger / strictly smaller field. -/
def cmpParts : List Nat → List Nat → Int
  | [], q => cmpZeros q
  | a :: xs, [] =>
    if a > 0 then 1 else if a < 0 then -1 else cmpParts xs []
  | a :: xs, b :: ys =>
    if a > b then 1 else if a < b then -1 else cmpParts xs ys

/-- `UpdateChecker._compare_version(v1, v2)`: parse both arguments, then run
the field-wise loop; `none` is the `ValueError` escaping on unparseable
input. -/
def compareVersion (v1 v2 : String) : Option Int := do
  let p1 ← parseParts v1
  let p2 ← parseParts v2
  pure (cmpParts p1 p2)

/-! Spec-side formulation of C1 ("field-wise numeric comparison of
dot-separated integers, padding a shorter version with zeros"): pad both
field lists with zeros to a common length, then compare field-wise. -/

/-- Field-wise comparison of two already-aligned field sequences. -/
def fieldCmp : List (Nat × Nat) → Int
  | [] => 0
  | (a, b) :: rest =>
    if a > b then 1 else if a < b then -1 else fieldCmp rest

/-- Pad a field list with zeros up to length `n`. -/
def padZeros (p : List Nat) (n : Nat) : List Nat :=
  p ++ List.replicate (n - p.length) 0

/-- The spec's description of version comparison: zero-pad the shorter list,
then compare field-wise. -/
def specCompare (p q : List Nat) : Int :=
  let n := max p.length q.length
  fieldCmp (List.zip (padZeros p n) (padZeros q n))

lemma specCompare_nil_nil : specCompare [] [] = 0 := rfl

lemma specCompare_cons_nil (a : Nat) (xs : List Nat) :
    specCompare (a :: xs) [] =
      if a > 0 then 1 else if a < 0 then (-1 : Int) else specCompare xs [] := by
  simp [specCompare, padZeros, List.replicate_succ, fieldCmp, List.zip]

lemma specCompare_nil_cons (b : Nat) (ys : List Nat) :
    specCompare [] (b :: ys) =
      if 0 > b then 1 else if 0 < b then (-1 : Int) else specCompare [] ys := by
  simp [specCompare, padZeros, List.replicate_succ, fieldCmp, List.zip]

lemma specCompare_cons_cons (a b : Nat) (xs ys : List Nat) :
    specCompare (a :: xs) (b :: ys) =
      if a > b then 1 else if a < b then (-1 : Int) else specCompare xs ys := by
  have hmax : max (xs.length + 1) (ys.length + 1) = max xs.length ys.length + 1 :=
    Nat.succ_max_succ xs.length ys.length
  simp [specCompare, padZeros, hmax, Nat.succ_sub_succ, fieldCmp, List.zip]

lemma cmpZeros_eq_specCompare_nil (q : List Nat) : cmpZeros q = specCompare [] q := by
  induction q with
  | nil => rfl
  | cons b ys ih => rw [cmpZeros, specCompare_nil_cons, ih]

/-- The source loop agrees with the spec's zero-padded field-wise
comparison on every pair of parsed field lists. -/
lemma cmpParts_eq_specCompare (p q : List Nat) : cmpParts p q = specCompare p q := by
  induction p generalizing q with
  | nil => simpa [cmpParts] using cmpZeros_eq_specCompare_nil q
  | cons a xs ih =>
    cases q with
    | nil => rw [cmpParts, specCompare_cons_nil, ih]
    | cons b ys => rw [cmpParts, specCompare_cons_cons, ih]

/-! ## updater.py: `UpdateChecker.run` and `AutoUpdater._on_check_error`

`run` fetches `version_url` and parses the JSON body; both steps happen
inside the same `try`, so they are modelled together as one
`Except String ServerInfo` input (`.error e` is the exception whose string
is emitted on `check_error`).  The JSON `server_info.get(key, default)`
reads are modelled by `Option` fields with `getD`. -/

/-- The remote version descriptor as `run` reads it: every field accessed
via `dict.get` with a default, hence `Option`. -/
structure ServerInfo where
  version : Option String
  changelog : Option (List String)
  download_url : Option String
  mandatory : Option Bool
  published_at : Option String

/-- The `result` dict emitted on `check_finished`: either the update branch
(with changelog, download URL, mandatory flag, publication date) or the
no-update branch. -/
inductive UpdateResult
  | update (current_version latest_version : String)
      (changelog : List String) (download_url : String)
      (mandatory : Bool) (published_at : String)
  | noUpdate (current_version latest_version : String)
deriving DecidableEq, Repr

/-- What one execution of `UpdateChecker.run` emits: a `check_finished`
payload or a `check_error` message. -/
inductive CheckOutcome
  | finished (r : UpdateResult)
  | errorEvt (msg : String)
deriving DecidableEq, Repr

/-- Stand-in for the `ValueError` message `int()` raises on a malformed
version field (the exact Python message text is abstracted). -/
def invalidVersionMsg : String := "invalid literal for int() with base 10"

/-- `UpdateChecker.run`, given the locally persisted current version and
the outcome of fetching+parsing the remote descriptor.  The whole body is
one `try`: any exception becomes a `check_error` emission. -/
def runCheck (current_version : String) (fetch : Except String ServerInfo) :
    CheckOutcome :=
  match fetch with
  | .error e => .errorEvt e
  | .ok server_info =>
    let latest_version := server_info.version.getD current_version
    match compareVersion latest_version current_version with
    | none => .errorEvt invalidVersionMsg
    | some c =>
      if c > 0 then
        .finished (.update current_version latest_version
          (server_info.changelog.getD [])
          (server_info.download_url.getD "")
          (server_info.mandatory.getD false)
          (server_info.published_at.getD ""))
      else
        .finished (.noUpdate current_version latest_version)

/-- `AutoUpdater._on_check_error`: the warning box text shown to the user,
`none` when the check was silent. -/
def onCheckError (silent : Bool) (error_msg : String) : Option String :=
  if silent then none
  else some ("无法连接到更新服务器:\n" ++ error_msg)

/-! ## plugin_manager.py / base_plugin.py -/

/-- A plugin instance as the manager observes it: its `get_name()`,
`get_category()`, and whether each lifecycle callback
(`initialize` / `on_activate` / `on_deactivate`) raises, with the
exception message it would raise. -/
structure Plugin where
  name : String
  category : String
  initErr : Option String
  actErr : Option String
  deactErr : Option String
deriving DecidableEq, Repr

/-- Observable actions of the manager: invocations of plugin lifecycle
methods and the Qt signals it emits. -/
inductive Event
  | callInit (name : String)
  | callOnActivate (name : String)
  | callOnDeactivate (name : String)
  | pluginLoaded (name : String)
  | pluginActivated (name : String)
  | pluginDeactivated (name : String)
  | pluginError (name msg : String)
deriving DecidableEq, Repr

/-- Number of occurrences of an event in a trace. -/
def countEvent (evs : List Event) (e : Event) : Nat :=
  (evs.filter (fun x => x = e)).length

/-- `PluginManager` mutable state: `_plugins` (name → instance dict),
`_active_plugin`, `_plugin_categories` (category → names dict).  Python
dicts are insertion-ordered association lists. -/
structure ManagerState where
  plugins : List (String × Plugin)
  activePlugin : Option String
  categories : List (String × List String)
deriving DecidableEq, Repr

/-- The state built by `PluginManager.__init__`. -/
def emptyManager : ManagerState := ⟨[], none, []⟩

/-- `self._plugins.get(name)` / `name in self._plugins`: first association
with the given key. -/
def lookupPlugin : List (String × Plugin) → String → Option Plugin
  | [], _ => none
  | (k, v) :: rest, n => if k = n then some v else lookupPlugin rest n

/-- `self._plugins[name] = plugin`: dict assignment — replace the value in
place when the key is present, append at the end otherwise. -/
def insertPlugin : List (String × Plugin) → String → Plugin → List (String × Plugin)
  | [], n, p => [(n, p)]
  | (k, v) :: rest, n, p =>
    if k = n then (k, p) :: rest else (k, v) :: insertPlugin rest n p

/-- The category bookkeeping shared by `_load_plugin_module` and
`register_plugin`: create the category's list if absent, then append the
plugin name to it. -/
def appendCategory : List (String × List String) → String → String →
    List (String × List String)
  | [], c, n => [(c, [n])]
  | (k, v) :: rest, c, n =>
    if k = c then (k, v ++ [n]) :: rest else (k, v) :: appendCategory rest c n

/-- `self._plugin_categories.get(category)`. -/
def lookupCategory : List (String × List String) → String → Option (List String)
  | [], _ => none
  | (k, v) :: rest, c => if k = c then some v else lookupCategory rest c

/-- One `.py` file of the plugin directory, identified by its module name.
`load` is the outcome of `importlib.import_module` plus the
`inspect.getmembers` scan and the `obj()` instantiation:
`.error e` when any of those raises, `.ok none` when the module holds no
`BasePlugin` subclass, `.ok (some p)` for the one plugin class processed
(the loop `break`s after the first). -/
structure PluginModule where
  name : String
  load : Except String (Option Plugin)

/-- The registration body shared verbatim by `_load_plugin_module` and
`register_plugin`: store the instance under its name, append the name to
its category, then call `initialize` inside a `try` whose `except` emits
`plugin_error` (the plugin stays registered even when `initialize`
raises). -/
def registerPlugin (st : ManagerState) (p : Plugin) : ManagerState × List Event :=
  let st1 : ManagerState :=
    { st with plugins := insertPlugin st.plugins p.name p,
              categories := appendCategory st.categories p.category p.name }
  match p.initErr with
  | none => (st1, [.callInit p.name, .pluginLoaded p.name])
  | some msg => (st1, [.callInit p.name, .pluginError p.name msg])

/-- `PluginManager.load_plugins`: iterate over the directory's modules in
listing order; an exception from `_load_plugin_module` is caught and
emitted as `plugin_error(module_name, msg)`, and the loop continues with
the next module.  (The `os.listdir` filename filter and the `sys.path`
bookkeeping are upstream of the per-module work modelled here: `dir`
already stands for the `.py`, non-dunder modules in listing order.) -/
def loadPlugins (st : ManagerState) (dir : List PluginModule) :
    ManagerState × List Event :=
  match dir with
  | [] => (st, [])
  | m :: rest =>
    let step : ManagerState × List Event :=
      match m.load with
      | .error e => (st, [.pluginError m.name e])
      | .ok none => (st, [])
      | .ok (some p) => registerPlugin st p
    let next := loadPlugins step.1 rest
    (next.1, step.2 ++ next.2)

/-- `PluginManager.deactivate_plugin`: guarded by registration and by
being the currently active plugin; `on_deactivate` runs in a `try` whose
`except` emits `plugin_error` and leaves `_active_plugin` unchanged. -/
def deactivatePlugin (st : ManagerState) (name : String) :
    ManagerState × Bool × List Event :=
  match lookupPlugin st.plugins name with
  | none => (st, false, [])
  | some p =>
    if st.activePlugin ≠ some name then (st, false, [])
    else
      match p.deactErr with
      | none =>
        ({ st with activePlugin := none }, true,
         [.callOnDeactivate name, .pluginDeactivated name])
      | some msg => (st, false, [.callOnDeactivate name, .pluginError name msg])

/-- `PluginManager.activate_plugin`.  The previous plugin is deactivated
under the Python-truthiness guard
`if self._active_plugin and self._active_plugin != name:` — an active
plugin whose name is the empty string is falsy and is NOT deactivated.
`on_activate` runs in a `try`; only on success is `_active_plugin` set. -/
def activatePlugin (st : ManagerState) (name : String) :
    ManagerState × Bool × List Event :=
  match lookupPlugin st.plugins name with
  | none => (st, false, [])
  | some p =>
    let deact : ManagerState × List Event :=
      match st.activePlugin with
      | some a =>
        if a ≠ "" ∧ a ≠ name then
          let r := deactivatePlugin st a
          (r.1, r.2.2)
        else (st, [])
      | none => (st, [])
    match p.actErr with
    | none =>
      ({ deact.1 with activePlugin := some name }, true,
       deact.2 ++ [.callOnActivate name, .pluginActivated name])
    | some msg =>
      (deact.1, false, deact.2 ++ [.callOnActivate name, .pluginError name msg])

/-- An operation that grows the registry, for the uniqueness invariant:
a `load_plugins` call or a `register_plugin` call. -/
inductive ManagerOp
  | load (dir : List PluginModule)
  | register (p : Plugin)

/-- Apply one registry-growing operation, keeping only the state. -/
def applyOp (st : ManagerState) : ManagerOp → ManagerState
  | .load dir => (loadPlugins st dir).1
  | .register p => (registerPlugin st p).1

/-- Apply a sequence of `load_plugins` / `register_plugin` operations to a
fresh manager. -/
def applyOps (ops : List ManagerOp) : ManagerState :=
  ops.foldl applyOp emptyManager

/-- The keys of the `_plugins` dict. -/
def mapKeys (l : List (String × Plugin)) : List String := l.map Prod.fst

/-! ## base_plugin.py: `BasePlugin.initialize` -/

/-- The `BasePlugin` state `initialize` touches: the `_initialized` flag,
plus counters for how often `_setup_ui` and `_connect_signals` have run. -/
structure PluginInitState where
  isInit : Bool
  setupCount : Nat
  connectCount : Nat
deriving DecidableEq, Repr

/-- `BasePlugin.initialize`: when not yet initialized, run `_setup_ui` and
`_connect_signals` and set `_initialized`; otherwise do nothing. -/
def initPlugin (s : PluginInitState) : PluginInitState :=
  if s.isInit then s
  else { isInit := true, setupCount := s.setupCount + 1,
         connectCount := s.connectCount + 1 }

/-! ## Helper lemmas -/

lemma cmpParts_self (p : List Nat) : cmpParts p p = 0 := by
  induction p with
  | nil => rfl
  | cons a xs ih => simp [cmpParts, ih]

lemma mapKeys_insertPlugin (l : List (String × Plugin)) (n : String) (p : Plugin) :
    mapKeys (insertPlugin l n p) =
      if n ∈ mapKeys l then mapKeys l else mapKeys l ++ [n] := by
  induction l with
  | nil => simp [insertPlugin, mapKeys]
  | cons kv rest ih =>
    obtain ⟨k, v⟩ := kv
    by_cases h : k = n
    · simp [insertPlugin, h, mapKeys]
    · have hnk : ¬ n = k := fun e => h e.symm
      simp only [insertPlugin, if_neg h, mapKeys, List.map_cons] at ih ⊢
      rw [ih]
      by_cases hm : n ∈ List.map Prod.fst rest <;> simp [hm, hnk]

lemma nodup_insertPlugin (l : List (String × Plugin)) (n : String) (p : Plugin)
    (h : (mapKeys l).Nodup) : (mapKeys (insertPlugin l n p)).Nodup := by
  rw [mapKeys_insertPlugin]
  by_cases hm : n ∈ mapKeys l
  · simpa [hm] using h
  · simp [hm, List.nodup_append, h]

lemma registerPlugin_fst (st : ManagerState) (p : Plugin) :
    (registerPlugin st p).1 =
      { st with plugins := insertPlugin st.plugins p.name p,
                categories := appendCategory st.categories p.category p.name } := by
  cases h : p.initErr <;> simp [registerPlugin, h]

lemma nodup_registerPlugin (st : ManagerState) (p : Plugin)
    (h : (mapKeys st.plugins).Nodup) :
    (mapKeys (registerPlugin st p).1.plugins).Nodup := by
  rw [registerPlugin_fst]
  exact nodup_insertPlugin _ _ _ h

lemma nodup_loadPlugins (dir : List PluginModule) (st : ManagerState)
    (h : (mapKeys st.plugins).Nodup) :
    (mapKeys (loadPlugins st dir).1.plugins).Nodup := by
  induction dir generalizing st with
  | nil => simpa [loadPlugins]
  | cons m rest ih =>
    rw [loadPlugins]
    rcases hm : m.load with e | op
    · exact ih st h
    · rcases op with _ | p
      · exact ih st h
      · exact ih _ (nodup_registerPlugin st p h)

lemma deactivatePlugin_plugins (st : ManagerState) (n : String) :
    (deactivatePlugin st n).1.plugins = st.plugins := by
  rw [deactivatePlugin]
  rcases h : lookupPlugin st.plugins n with _ | p
  · rfl
  · by_cases ha : st.activePlugin ≠ some n
    · simp [ha]
    · rcases hd : p.deactErr with _ | msg <;> simp [ha, hd]

lemma activatePlugin_plugins (st : ManagerState) (n : String) :
    (activatePlugin st n).1.plugins = st.plugins := by
  rw [activatePlugin]
  rcases h : lookupPlugin st.plugins n with _ | p
  · rfl
  · rcases ha : st.activePlugin with _ | a
    · rcases hc : p.actErr with _ | msg <;> simp [ha, hc]
    · by_cases hg : a ≠ "" ∧ a ≠ n <;>
        rcases hc : p.actErr with _ | msg <;>
        simp [ha, hc, hg, deactivatePlugin_plugins]

/-! ## Claim theorems -/

/-- Claim C1: `_compare_version` performs field-wise numeric comparison of
dot-separated integers, padding the shorter version with zeros (first
conjunct: on any inputs satisfying the precondition, the result is the
spec's zero-padded field-wise comparison of the parsed field lists), and
in particular compare("1.2.0","1.1.9") > 0, compare("1.0","1.0.0") == 0,
compare("1.0","1.1") < 0. -/
theorem compare_version_fieldwise :
    (∀ v1 v2 p1 p2, parseParts v1 = some p1 → parseParts v2 = some p2 →
        compareVersion v1 v2 = some (specCompare p1 p2)) ∧
    compareVersion "1.2.0" "1.1.9" = some 1 ∧
    compareVersion "1.0" "1.0.0" = some 0 ∧
    compareVersion "1.0" "1.1" = some (-1) := by
  refine ⟨?_, by decide, by decide, by decide⟩
  intro v1 v2 p1 p2 h1 h2
  simp [compareVersion, h1, h2, cmpParts_eq_specCompare]

/-- Witness for C1: the general conjunct applied at "2.0" vs "1.9.9". -/
theorem compare_version_fieldwise_witness :
    compareVersion "2.0" "1.9.9" = some (specCompare [2, 0] [1, 9, 9]) :=
  compare_version_fieldwise.1 "2.0" "1.9.9" [2, 0] [1, 9, 9]
    (by decide) (by decide)

/-- Claim C4: `UpdateChecker.run` reports an available update (with
changelog, download URL, mandatory flag and publication date from the
remote descriptor) exactly when the remote version compares strictly
greater than the locally persisted current version, and otherwise reports
no update. -/
theorem update_reported_iff_remote_newer (current : String)
    (info : ServerInfo) (p1 p2 : List Nat)
    (h1 : parseParts (info.version.getD current) = some p1)
    (h2 : parseParts current = some p2) :
    runCheck current (.ok info) =
      if cmpParts p1 p2 > 0 then
        .finished (.update current (info.version.getD current)
          (info.changelog.getD []) (info.download_url.getD "")
          (info.mandatory.getD false) (info.published_at.getD ""))
      else
        .finished (.noUpdate current (info.version.getD current)) := by
  simp [runCheck, compareVersion, h1, h2]

/-- Witness for C4 at a newer remote descriptor. -/
theorem update_reported_iff_remote_newer_witness :
    runCheck "1.0.0"
        (.ok ⟨some "1.1.0", some ["fix"], some "https://u", some true, some "2024"⟩) =
      if cmpParts [1, 1, 0] [1, 0, 0] > 0 then
        .finished (.update "1.0.0" "1.1.0" ["fix"] "https://u" true "2024")
      else
        .finished (.noUpdate "1.0.0" "1.1.0") :=
  update_reported_iff_remote_newer "1.0.0"
    ⟨some "1.1.0", some ["fix"], some "https://u", some true, some "2024"⟩
    [1, 1, 0] [1, 0, 0] (by decide) (by decide)

/-- Claim C6: every failure while checking for an update (network error or
unparseable body, modelled as the fetch step raising; or a version field
that fails numeric parsing) yields a `check_error` emission carrying the
error message rather than a crash, and the non-silent
`AutoUpdater._on_check_error` shows it to the user (while the silent one
stays quiet). -/
theorem check_errors_reported :
    (∀ current e, runCheck current (.error e) = .errorEvt e) ∧
    (∀ e, onCheckError false e = some ("无法连接到更新服务器:\n" ++ e)) ∧
    (∀ e, onCheckError true e = none) ∧
    (∀ current info v, info.version = some v → parseParts v = none →
        runCheck current (.ok info) = .errorEvt invalidVersionMsg) := by
  refine ⟨fun _ _ => rfl, fun _ => rfl, fun _ => rfl, ?_⟩
  intro current info v hv hp
  simp [runCheck, compareVersion, hv, hp]

/-- Witness for C6: a remote descriptor whose version field does not parse
is reported as an error event. -/
theorem check_errors_reported_witness :
    runCheck "1.0.0" (.ok ⟨some "not-a-version", none, none, none, none⟩) =
      .errorEvt invalidVersionMsg :=
  check_errors_reported.2.2.2 "1.0.0"
    ⟨some "not-a-version", none, none, none, none⟩ "not-a-version"
    rfl (by decide)

/-- Claim C8: when the remote descriptor lacks a version field, `run`
defaults the latest version to the current version, so the check reports
no update (for any current version satisfying the parsing
precondition) instead of treating the descriptor as an error. -/
theorem missing_version_field_no_update (current : String)
    (info : ServerInfo) (p : List Nat)
    (hv : info.version = none) (hp : parseParts current = some p) :
    runCheck current (.ok info) = .finished (.noUpdate current current) := by
  simp [runCheck, compareVersion, hv, hp, cmpParts_self]

/-- Witness for C8 at current version "0.1.0". -/
theorem missing_version_field_no_update_witness :
    runCheck "0.1.0" (.ok ⟨none, none, none, none, none⟩) =
      .finished (.noUpdate "0.1.0" "0.1.0") :=
  missing_version_field_no_update "0.1.0" ⟨none, none, none, none, none⟩
    [0, 1, 0] rfl (by decide)

/-- Claim C10: `BasePlugin.initialize` is idempotent — the first call on an
uninitialized plugin runs `_setup_ui` and `_connect_signals` once and sets
the flag, and any call on an already-initialized plugin changes nothing. -/
theorem init_idempotent :
    (∀ s, initPlugin (initPlugin s) = initPlugin s) ∧
    (∀ s, s.isInit = false →
        initPlugin s = ⟨true, s.setupCount + 1, s.connectCount + 1⟩) ∧
    (∀ s, s.isInit = true → initPlugin s = s) := by
  refine ⟨?_, ?_, ?_⟩
  · intro s
    by_cases h : s.isInit <;> simp [initPlugin, h]
  · intro s h
    simp [initPlugin, h]
  · intro s h
    simp [initPlugin, h]

/-- Witness for C10 at the fresh plugin state. -/
theorem init_idempotent_witness :
    initPlugin (initPlugin ⟨false, 0, 0⟩) = initPlugin ⟨false, 0, 0⟩ ∧
    initPlugin ⟨false, 0, 0⟩ = ⟨true, 1, 1⟩ ∧
    initPlugin ⟨true, 1, 1⟩ = ⟨true, 1, 1⟩ :=
  ⟨init_idempotent.1 ⟨false, 0, 0⟩,
   init_idempotent.2.1 ⟨false, 0, 0⟩ rfl,
   init_idempotent.2.2 ⟨true, 1, 1⟩ rfl⟩

/-- A demonstration plugin whose callbacks all succeed. -/
def alphaPlugin : Plugin := ⟨"alpha", "tools", none, none, none⟩

/-- A one-module plugin directory yielding `alphaPlugin`. -/
def demoDir : List PluginModule := [⟨"mod_alpha", .ok (some alphaPlugin)⟩]

/-- Claim C7: after any sequence of `load_plugins` and `register_plugin`
operations on a fresh manager, plugin names are unique — no name occurs
twice among the keys of the `_plugins` registry (each name maps to exactly
one instance, since `_plugins` is keyed by name). -/
theorem plugin_names_unique (ops : List ManagerOp) :
    (mapKeys (applyOps ops).plugins).Nodup := by
  suffices h : ∀ (l : List ManagerOp) (st : ManagerState),
      (mapKeys st.plugins).Nodup →
      (mapKeys (l.foldl applyOp st).plugins).Nodup by
    exact h ops emptyManager (by simp [emptyManager, mapKeys])
  intro l
  induction l with
  | nil => intro st h; simpa using h
  | cons op rest ih =>
    intro st h
    rw [List.foldl_cons]
    rcases op with dir | p
    · exact ih _ (nodup_loadPlugins dir st h)
    · exact ih _ (nodup_registerPlugin st p h)

/-- Counterexample to C2 as stated: loading the same one-module directory
twice leaves the category list of "tools" with the name "alpha" twice, a
duplicate entry with the same plugin name. -/
theorem load_twice_duplicates_category_cex :
    lookupCategory
        ((loadPlugins (loadPlugins emptyManager demoDir).1 demoDir).1).categories
        "tools" = some ["alpha", "alpha"] ∧
    ¬ (["alpha", "alpha"] : List String).Nodup := by
  constructor
  · rfl
  · decide

/-- Claim C2 (amended): calling `load_plugins` twice is idempotent for the
name-to-instance map — it ends with no duplicate names (the dict keys stay
unique) — but each load appends the plugin names to the category lists
again, so the category lists do accumulate duplicates (see the
counterexample). -/
theorem load_twice_map_no_duplicates (st : ManagerState)
    (dir : List PluginModule) (h : (mapKeys st.plugins).Nodup) :
    (mapKeys ((loadPlugins (loadPlugins st dir).1 dir).1).plugins).Nodup :=
  nodup_loadPlugins dir _ (nodup_loadPlugins dir st h)

/-- Witness for amended C2: double-loading the demo directory into a fresh
manager keeps the registry keys duplicate-free. -/
theorem load_twice_map_no_duplicates_witness :
    (mapKeys ((loadPlugins (loadPlugins emptyManager demoDir).1 demoDir).1).plugins).Nodup :=
  load_twice_map_no_duplicates emptyManager demoDir (by simp [emptyManager, mapKeys])

/-- A registered plugin whose `get_name()` is the empty string. -/
def emptyNamePlugin : Plugin := ⟨"", "tools", none, none, none⟩

/-- A second demonstration plugin. -/
def betaPlugin : Plugin := ⟨"beta", "tools", none, none, none⟩

/-- A third demonstration plugin. -/
def gammaPlugin : Plugin := ⟨"gamma", "tools", none, none, none⟩

/-- Manager state in which the empty-named plugin is registered and
active alongside `betaPlugin`. -/
def emptyActiveState : ManagerState :=
  ⟨[("", emptyNamePlugin), ("beta", betaPlugin)], some "",
   [("tools", ["", "beta"])]⟩

/-- Manager state with `gammaPlugin` active alongside `betaPlugin`. -/
def twoActiveState : ManagerState :=
  ⟨[("gamma", gammaPlugin), ("beta", betaPlugin)], some "gamma",
   [("tools", ["gamma", "beta"])]⟩

/-- Counterexample to C3 as stated: with the empty-named plugin A
registered, distinct from registered "beta", and currently active,
`activate_plugin("beta")` never calls A's `on_deactivate` (zero times, not
exactly once), because `if self._active_plugin and ...` treats the empty
string as falsy; "beta" still becomes the active plugin. -/
theorem activate_empty_name_skips_deactivate_cex :
    lookupPlugin emptyActiveState.plugins "" = some emptyNamePlugin ∧
    lookupPlugin emptyActiveState.plugins "beta" = some betaPlugin ∧
    emptyActiveState.activePlugin = some "" ∧
    countEvent (activatePlugin emptyActiveState "beta").2.2
      (.callOnDeactivate "") = 0 ∧
    (activatePlugin emptyActiveState "beta").1.activePlugin = some "beta" := by
  refine ⟨rfl, rfl, rfl, ?_, rfl⟩
  decide

/-- Claim C3 (amended): for distinct registered plugins A and B with A
active and A's name non-empty (the Python truthiness guard skips falsy
names; see the counterexample), and B's `on_activate` not raising,
`activate_plugin(B)` calls A's `on_deactivate` exactly once, before B's
`on_activate`, and B becomes the active plugin. -/
theorem activate_switch_deactivates_once (st : ManagerState) (A B : String)
    (pA pB : Plugin) (hA : lookupPlugin st.plugins A = some pA)
    (hB : lookupPlugin st.plugins B = some pB) (hAe : A ≠ "")
    (hne : A ≠ B) (hact : st.activePlugin = some A)
    (hBok : pB.actErr = none) :
    countEvent (activatePlugin st B).2.2 (.callOnDeactivate A) = 1 ∧
    (∃ i j, i < j ∧
        (activatePlugin st B).2.2.get? i = some (.callOnDeactivate A) ∧
        (activatePlugin st B).2.2.get? j = some (.callOnActivate B)) ∧
    (activatePlugin st B).1.activePlugin = some B ∧
    (activatePlugin st B).2.1 = true := by
  rcases hd : pA.deactErr with _ | msg
  · have hrun : activatePlugin st B =
        ({ st with activePlugin := some B }, true,
         [.callOnDeactivate A, .pluginDeactivated A,
          .callOnActivate B, .pluginActivated B]) := by
      simp [activatePlugin, deactivatePlugin, hA, hB, hact, hAe, hne, hBok, hd]
    rw [hrun]
    exact ⟨by simp [countEvent], ⟨0, 2, by omega, rfl, rfl⟩, rfl, rfl⟩
  · have hrun : activatePlugin st B =
        ({ st with activePlugin := some B }, true,
         [.callOnDeactivate A, .pluginError A msg,
          .callOnActivate B, .pluginActivated B]) := by
      simp [activatePlugin, deactivatePlugin, hA, hB, hact, hAe, hne, hBok, hd]
    rw [hrun]
    exact ⟨by simp [countEvent], ⟨0, 2, by omega, rfl, rfl⟩, rfl, rfl⟩

/-- Witness for amended C3: switching from active "gamma" to "beta". -/
theorem activate_switch_deactivates_once_witness :
    countEvent (activatePlugin twoActiveState "beta").2.2
      (.callOnDeactivate "gamma") = 1 ∧
    (∃ i j, i < j ∧
        (activatePlugin twoActiveState "beta").2.2.get? i =
          some (.callOnDeactivate "gamma") ∧
        (activatePlugin twoActiveState "beta").2.2.get? j =
          some (.callOnActivate "beta")) ∧
    (activatePlugin twoActiveState "beta").1.activePlugin = some "beta" ∧
    (activatePlugin twoActiveState "beta").2.1 = true :=
  activate_switch_deactivates_once twoActiveState "gamma" "beta"
    gammaPlugin betaPlugin rfl rfl (by decide) (by decide) rfl rfl

/-- Claim C9: `activate_plugin(A)` with A already active never calls
`on_deactivate`, calls A's `on_activate` once more, keeps A as the active
plugin, and returns True exactly when `on_activate` succeeds. -/
theorem activate_already_active (st : ManagerState) (A : String)
    (pA : Plugin) (hA : lookupPlugin st.plugins A = some pA)
    (hact : st.activePlugin = some A) :
    (∀ n, countEvent (activatePlugin st A).2.2 (.callOnDeactivate n) = 0) ∧
    countEvent (activatePlugin st A).2.2 (.callOnActivate A) = 1 ∧
    (activatePlugin st A).1.activePlugin = some A ∧
    (activatePlugin st A).2.1 = pA.actErr.isNone := by
  rcases ha : pA.actErr with _ | msg
  · have hrun : activatePlugin st A =
        ({ st with activePlugin := some A }, true,
         [.callOnActivate A, .pluginActivated A]) := by
      simp [activatePlugin, hA, hact, ha]
    rw [hrun]
    exact ⟨fun n => by simp [countEvent], by simp [countEvent], rfl, rfl⟩
  · have hrun : activatePlugin st A =
        (st, false, [.callOnActivate A, .pluginError A msg]) := by
      simp [activatePlugin, hA, hact, ha]
    rw [hrun]
    exact ⟨fun n => by simp [countEvent], by simp [countEvent], hact, rfl⟩

/-- Witness for C9: re-activating the already-active "gamma". -/
theorem activate_already_active_witness :
    countEvent (activatePlugin twoActiveState "gamma").2.2
      (.callOnDeactivate "beta") = 0 ∧
    countEvent (activatePlugin twoActiveState "gamma").2.2
      (.callOnActivate "gamma") = 1 ∧
    (activatePlugin twoActiveState "gamma").1.activePlugin = some "gamma" ∧
    (activatePlugin twoActiveState "gamma").2.1 = gammaPlugin.actErr.isNone :=
  ⟨(activate_already_active twoActiveState "gamma" gammaPlugin rfl rfl).1 "beta",
   (activate_already_active twoActiveState "gamma" gammaPlugin rfl rfl).2.1,
   (activate_already_active twoActiveState "gamma" gammaPlugin rfl rfl).2.2.1,
   (activate_already_active twoActiveState "gamma" gammaPlugin rfl rfl).2.2.2⟩

/-- Claim C5: exceptions raised by a plugin during load, activate or
deactivate are caught and surfaced as a `plugin_error` event carrying the
plugin (or module) name and the message; the operation returns False (or
skips that module and continues with the rest), and the manager's registry
is untouched, leaving it usable for other plugins. -/
theorem lifecycle_errors_contained :
    (∀ (st : ManagerState) (n e : String) (rest : List PluginModule),
        loadPlugins st (⟨n, .error e⟩ :: rest) =
          ((loadPlugins st rest).1,
           .pluginError n e :: (loadPlugins st rest).2)) ∧
    (∀ (st : ManagerState) (n : String) (p : Plugin) (msg : String),
        lookupPlugin st.plugins n = some p → p.actErr = some msg →
        (activatePlugin st n).2.1 = false ∧
        Event.pluginError n msg ∈ (activatePlugin st n).2.2 ∧
        (activatePlugin st n).1.plugins = st.plugins) ∧
    (∀ (st : ManagerState) (n : String) (p : Plugin) (msg : String),
        lookupPlugin st.plugins n = some p → st.activePlugin = some n →
        p.deactErr = some msg →
        deactivatePlugin st n =
          (st, false, [.callOnDeactivate n, .pluginError n msg])) := by
  refine ⟨fun st n e rest => rfl, ?_, ?_⟩
  · intro st n p msg hp ha
    refine ⟨?_, ?_, activatePlugin_plugins st n⟩
    · simp [activatePlugin, hp, ha]
    · simp [activatePlugin, hp, ha]
  · intro st n p msg hp hact hd
    simp [deactivatePlugin, hp, hact, hd]

/-- A plugin whose `on_activate` and `on_deactivate` both raise. -/
def badPlugin : Plugin := ⟨"bad", "tools", none, some "boom", some "bust"⟩

/-- Manager state with the raising plugin registered and active. -/
def badState : ManagerState :=
  ⟨[("bad", badPlugin)], some "bad", [("tools", ["bad"])]⟩

/-- Witness for C5: a failing import is skipped with a `plugin_error`,
and the raising plugin's activate/deactivate return False with
`plugin_error` events, leaving the registry intact. -/
theorem lifecycle_errors_contained_witness :
    loadPlugins emptyManager [⟨"mod_x", .error "ImportError"⟩] =
      ((loadPlugins emptyManager []).1,
       .pluginError "mod_x" "ImportError" :: (loadPlugins emptyManager []).2) ∧
    ((activatePlugin badState "bad").2.1 = false ∧
      Event.pluginError "bad" "boom" ∈ (activatePlugin badState "bad").2.2 ∧
      (activatePlugin badState "bad").1.plugins = badState.plugins) ∧
    deactivatePlugin badState "bad" =
      (badState, false, [.callOnDeactivate "bad", .pluginError "bad" "bust"]) :=
  ⟨lifecycle_errors_contained.1 emptyManager "mod_x" "ImportError" [],
   lifecycle_errors_contained.2.1 badState "bad" badPlugin "boom" rfl rfl,
   lifecycle_errors_contained.2.2 badState "bad" badPlugin "bust" rfl rfl rfl⟩

end WorkTools
